import Mathlib

/-!
Shallow embedding of the prisma-engines core excerpt: the connector
capability model (psl-core/src/datamodel_connector.rs), the tracing
helpers (query-engine/core/src/trace_helpers/mod.rs), the runtime
connection layer (sql-query-connector/src/database/runtime.rs), the
schema source file wrapper (schema-ast/src/source_file.rs) and the
migration-engine test-harness introspection helper
(migration-engine/core/tests/test_harness/misc_helpers.rs).
-/

/-! ## Flavour (datamodel_connector.rs, lines 370-392) -/

/-- The database flavour enum from datamodel_connector.rs. -/
inductive Flavour where
  | Cockroach
  | Mongo
  | Sqlserver
  | Mysql
  | Postgres
  | Sqlite
deriving DecidableEq, Repr

/-- Rust str::to_lowercase, modelled characterwise over the string data. -/
def to_lowercase (s : String) : String :=
  String.mk (s.data.map Char.toLower)

/-- The FromStr impl for Flavour: lowercases the input and matches it
against the five recognised identifier strings, anything else errors. -/
def Flavour.from_str (s : String) : Except String Flavour :=
  let l := to_lowercase s
  if l = "mysql" then .ok .Mysql
  else if l = "postgres" then .ok .Postgres
  else if l = "cockroachdb" then .ok .Cockroach
  else if l = "mssql" then .ok .Sqlserver
  else if l = "sqlite" then .ok .Sqlite
  else .error ("Unknown flavour: " ++ s)

/-! ## SourceFile (schema-ast/src/source_file.rs) -/

/-- The private Contents enum of SourceFile: a static string slice or an
allocated reference-counted string (both are just strings in the model). -/
inductive Contents where
  | Static (s : String)
  | Allocated (s : String)
deriving DecidableEq, Repr

/-- A Prisma schema document, wrapping its contents. -/
structure SourceFile where
  contents : Contents
deriving DecidableEq, Repr

/-- SourceFile::new_static wraps the string as Contents::Static. -/
def SourceFile.new_static (content : String) : SourceFile :=
  { contents := Contents.Static content }

/-- SourceFile::new_allocated wraps the string as Contents::Allocated. -/
def SourceFile.new_allocated (s : String) : SourceFile :=
  { contents := Contents.Allocated s }

/-- SourceFile::as_str returns the wrapped string in either variant. -/
def SourceFile.as_str : SourceFile → String
  | { contents := Contents.Static s } => s
  | { contents := Contents.Allocated s } => s

/-- The Default impl for SourceFile: static empty string. -/
def SourceFile.default_impl : SourceFile :=
  { contents := Contents.Static "" }

/-- The From impls for &str, &String, Box of str, Arc of str and String:
each copies or transfers the string and calls new_allocated. -/
def SourceFile.from_string (s : String) : SourceFile :=
  SourceFile.new_allocated s

/-! ## introspect_database (misc_helpers.rs, lines 43-49) -/

/-- A table of an introspected DatabaseSchema (name plus the rest of the
table payload, kept abstract as a list of column names). -/
structure Table where
  name : String
  columns : List String
deriving DecidableEq, Repr

/-- The introspected schema: the ordered list of tables. -/
structure DatabaseSchema where
  tables : List Table
deriving DecidableEq, Repr

/-- introspect_database post-processes the raw introspection result by
removing every table named "_Migration" from the table list. -/
def introspect_database (raw : DatabaseSchema) : DatabaseSchema :=
  { raw with tables := raw.tables.filter (fun t => t.name ≠ "_Migration") }

/-! ## Referential actions and relation mode (datamodel_connector.rs, lines 60-78) -/

/-- The referential actions of parser_database (Cascade, Restrict,
SetNull, SetDefault, NoAction). -/
inductive ReferentialAction where
  | Cascade
  | Restrict
  | SetNull
  | SetDefault
  | NoAction
deriving DecidableEq, Repr

/-- The bit index of each referential action inside an enumflags2 bitset. -/
def ReferentialAction.toBit : ReferentialAction → Nat
  | .Cascade => 0
  | .Restrict => 1
  | .SetNull => 2
  | .SetDefault => 3
  | .NoAction => 4

/-- An enumflags2 BitFlags of ReferentialAction, as a natural-number bitset. -/
def RefActionFlags : Type := Nat

/-- BitFlags::contains tests the bit of the given action. -/
def RefActionFlags.contains (bf : RefActionFlags) (a : ReferentialAction) : Bool :=
  Nat.testBit bf a.toBit

/-- RelationMode: database-enforced foreign keys or Prisma-level emulation. -/
inductive RelationMode where
  | ForeignKeys
  | Prisma
deriving DecidableEq, Repr

/-- The ValidatedConnector trait surface relevant to referential actions:
the two per-connector action sets. -/
structure ValidatedConnector where
  referential_actions : RefActionFlags
  emulated_referential_actions : RefActionFlags

/-- ValidatedConnector::supports_referential_action dispatches on the
relation mode to the matching action set. -/
def ValidatedConnector.supports_referential_action
    (c : ValidatedConnector) (relation_mode : RelationMode) (action : ReferentialAction) : Bool :=
  match relation_mode with
  | RelationMode.ForeignKeys => c.referential_actions.contains action
  | RelationMode.Prisma => c.emulated_referential_actions.contains action

/-! ## Native type mapping (datamodel_connector.rs, lines 228-248) -/

/-- The backend-independent scalar type set (parser_database ScalarType,
as listed in the data model: Boolean, Int, BigInt, Float, Decimal,
String, DateTime, Json, Bytes, Enum). -/
inductive ScalarType where
  | Boolean
  | Int
  | BigInt
  | Float
  | Decimal
  | String
  | DateTime
  | Json
  | Bytes
  | Enum
deriving DecidableEq, Repr

/-- A resolved native type: constructor name plus concrete arguments,
e.g. VarChar(255). -/
structure NativeTypeInstance where
  name : String
  args : List Nat
deriving DecidableEq, Repr

/-- The three native-type mapping methods of the Connector trait
(scalar_type_for_native_type, default_native_type_for_scalar_type,
native_type_is_default_for_scalar_type), each a total function over its
domain as the trait signatures require. -/
structure NativeTypeMapping where
  scalar_type_for_native_type : NativeTypeInstance → ScalarType
  default_native_type_for_scalar_type : ScalarType → NativeTypeInstance
  native_type_is_default_for_scalar_type : NativeTypeInstance → ScalarType → Bool

/-- Modelled from the spec: the concrete per-connector native type
catalogues are outside the excerpt, so this connector realises the
spec's scalar-to-default-native mapping (each built-in scalar type has a
corresponding native type, the inverse test is the same mapping in the
opposite direction). -/
def specConnector : NativeTypeMapping where
  scalar_type_for_native_type nt :=
    if nt.name = "BOOLEAN" then ScalarType.Boolean
    else if nt.name = "INTEGER" then ScalarType.Int
    else if nt.name = "BIGINT" then ScalarType.BigInt
    else if nt.name = "DOUBLE" then ScalarType.Float
    else if nt.name = "DECIMAL" then ScalarType.Decimal
    else if nt.name = "TIMESTAMP" then ScalarType.DateTime
    else if nt.name = "JSONB" then ScalarType.Json
    else if nt.name = "BYTEA" then ScalarType.Bytes
    else if nt.name = "ENUM" then ScalarType.Enum
    else ScalarType.String
  default_native_type_for_scalar_type s :=
    match s with
    | ScalarType.Boolean => { name := "BOOLEAN", args := [] }
    | ScalarType.Int => { name := "INTEGER", args := [] }
    | ScalarType.BigInt => { name := "BIGINT", args := [] }
    | ScalarType.Float => { name := "DOUBLE", args := [] }
    | ScalarType.Decimal => { name := "DECIMAL", args := [65, 30] }
    | ScalarType.String => { name := "TEXT", args := [] }
    | ScalarType.DateTime => { name := "TIMESTAMP", args := [3] }
    | ScalarType.Json => { name := "JSONB", args := [] }
    | ScalarType.Bytes => { name := "BYTEA", args := [] }
    | ScalarType.Enum => { name := "ENUM", args := [] }
  native_type_is_default_for_scalar_type nt s :=
    match s with
    | ScalarType.Boolean => nt = { name := "BOOLEAN", args := [] }
    | ScalarType.Int => nt = { name := "INTEGER", args := [] }
    | ScalarType.BigInt => nt = { name := "BIGINT", args := [] }
    | ScalarType.Float => nt = { name := "DOUBLE", args := [] }
    | ScalarType.Decimal => nt = { name := "DECIMAL", args := [65, 30] }
    | ScalarType.String => nt = { name := "TEXT", args := [] }
    | ScalarType.DateTime => nt = { name := "TIMESTAMP", args := [3] }
    | ScalarType.Json => nt = { name := "JSONB", args := [] }
    | ScalarType.Bytes => nt = { name := "BYTEA", args := [] }
    | ScalarType.Enum => nt = { name := "ENUM", args := [] }

/-- Pairwise consistency of a capability model: mapping a scalar type to
its default native type and back is the identity. -/
def PairwiseConsistent (c : NativeTypeMapping) : Prop :=
  ∀ s : ScalarType,
    c.scalar_type_for_native_type (c.default_native_type_for_scalar_type s) = s

/-! ## Span serialization (trace_helpers/mod.rs) -/

/-- The attribute allow-list of the telemetry helpers. -/
def ACCEPT_ATTRIBUTES : List String := ["db.statement", "itx_id", "db.type"]

/-- HashMap::insert on an association list: replaces the binding of the
key (if any) with the new value. -/
def hashMapInsert (m : List (String × String)) (k v : String) : List (String × String) :=
  m.filter (fun p => p.1 ≠ k) ++ [(k, v)]

/-- The span data accepted by span_to_json: attributes plus identifying
fields (opentelemetry SpanData, with times as epoch milliseconds). -/
structure SpanData where
  name : String
  trace_id : String
  span_id : String
  parent_span_id : String
  start_time : Nat
  end_time : Nat
  attributes : List (String × String)
deriving DecidableEq, Repr

/-- The JSON object produced by span_to_json, one field per map key. -/
structure JsonSpan where
  name : String
  trace_id : String
  span_id : String
  parent_span_id : String
  start_time : Nat
  end_time : Nat
  attributes : List (String × String)
deriving DecidableEq, Repr

/-- span_to_json: folds the span attributes into a fresh map, inserting
only keys on the allow-list, and rewrites the quaint query span name. -/
def span_to_json (span : SpanData) : JsonSpan :=
  let attributes : List (String × String) :=
    span.attributes.foldl
      (fun map kv =>
        if ACCEPT_ATTRIBUTES.contains kv.1 then hashMapInsert map kv.1 kv.2 else map)
      []
  let name : String := if span.name = "quaint:query" then "prisma:db_query" else span.name
  { name := name
    trace_id := span.trace_id
    span_id := span.span_id
    parent_span_id := span.parent_span_id
    start_time := span.start_time
    end_time := span.end_time
    attributes := attributes }

/-- The JSON document built by spans_to_json before serialization. -/
structure SpanResult where
  span : Bool
  spans : List JsonSpan
deriving DecidableEq, Repr

/-- spans_to_json: maps span_to_json over the spans, wraps the result and
serializes to a string via serde_json (the serializer is a parameter of
the embedding); a serialization error is replaced by the empty string. -/
def spans_to_json (serialize : SpanResult → Except String String)
    (spans : List SpanData) : String :=
  let span_result : SpanResult := { span := true, spans := spans.map span_to_json }
  match serialize span_result with
  | Except.ok json_string => json_string
  | Except.error _ => ""

/-- set_parent_context_from_json_str: parses the trace string into a
string map via serde_json (the parser is a parameter of the embedding),
defaulting to the empty map when parsing fails, and returns the value of
the traceparent key. -/
def set_parent_context_from_json_str
    (parse : String → Option (List (String × String))) (trace : String) : Option String :=
  let traceMap : List (String × String) := (parse trace).getD []
  traceMap.lookup "traceparent"

/-! ## Runtime pool and connection (runtime.rs) -/

/-- A quaint error, kept abstract as its message. -/
structure QuaintError where
  msg : String
deriving DecidableEq, Repr

/-- SqlError as produced from a quaint error by the From impl. -/
structure SqlError where
  quaint_error : QuaintError
deriving DecidableEq, Repr

/-- The From impl converting a quaint error into SqlError. -/
def SqlError.from_quaint (e : QuaintError) : SqlError :=
  { quaint_error := e }

/-- A pooled quaint connection: an identifying handle plus the
isolation-ordering flag the backend reports. -/
structure PooledConnection where
  id : Nat
  requires_isolation_first : Bool
deriving DecidableEq, Repr

/-- A foreign (js-driver supplied) queryable; cloning the reference-counted
handle yields the same underlying queryable, so clones are the value itself. -/
structure Queryable where
  id : Nat
  requires_isolation_first : Bool
deriving DecidableEq, Repr

/-- The quaint pool, characterised by the outcome of its checkout. -/
structure Quaint where
  check_out : Except QuaintError PooledConnection

/-- RuntimePool: natively pooled (Rust) or foreign-supplied (Js). -/
inductive RuntimePool where
  | Rust (pool : Quaint)
  | Js (queryable : Queryable)

/-- RuntimeConnection: a pooled connection or a cloned foreign reference. -/
inductive RuntimeConnection where
  | Rust (conn : PooledConnection)
  | Js (queryable : Queryable)
deriving DecidableEq, Repr

/-- RuntimePool::check_out: the Rust variant checks a connection out of
the quaint pool, converting a pool error into SqlError; the Js variant
clones the queryable reference and returns it as Ok. -/
def RuntimePool.check_out : RuntimePool → Except SqlError RuntimeConnection
  | RuntimePool.Rust pool =>
    match pool.check_out with
    | Except.ok conn => Except.ok (RuntimeConnection.Rust conn)
    | Except.error e => Except.error (SqlError.from_quaint e)
  | RuntimePool.Js queryable => Except.ok (RuntimeConnection.Js queryable)

/-- RuntimeConnection::requires_isolation_first dispatches to the
underlying connection's flag. -/
def RuntimeConnection.requires_isolation_first : RuntimeConnection → Bool
  | RuntimeConnection.Rust conn => conn.requires_isolation_first
  | RuntimeConnection.Js queryable => queryable.requires_isolation_first

/-- The quaint isolation levels. -/
inductive IsolationLevel where
  | ReadUncommitted
  | ReadCommitted
  | RepeatableRead
  | Serializable
  | Snapshot
deriving DecidableEq, Repr

/-- A statement observable on a connection around transaction start. -/
inductive TxStatement where
  | SetIsolation (level : IsolationLevel)
  | BeginTransaction
deriving DecidableEq, Repr

/-- RuntimeConnection::set_tx_isolation_level forwards the isolation
statement to the underlying connection; in the model it is the emitted
statement. -/
def RuntimeConnection.set_tx_isolation_level (_conn : RuntimeConnection)
    (isolation_level : IsolationLevel) : TxStatement :=
  TxStatement.SetIsolation isolation_level

/-- Modelled from the spec: the transaction-start sequence of the
execution runtime is outside the excerpt (only the
requires_isolation_first flag and the set_tx_isolation_level dispatcher
are in it); per the spec the runtime branches on the flag, issuing the
isolation statement before transaction start when the flag is set and
after it otherwise. -/
def start_transaction (conn : RuntimeConnection) (level : Option IsolationLevel) :
    List TxStatement :=
  match level with
  | none => [TxStatement.BeginTransaction]
  | some l =>
    if conn.requires_isolation_first then
      [conn.set_tx_isolation_level l, TxStatement.BeginTransaction]
    else
      [TxStatement.BeginTransaction, conn.set_tx_isolation_level l]

/-! ## Validation hooks (datamodel_connector.rs, lines 189-226) -/

/-- A source span (byte offsets), as attached to diagnostics. -/
structure Span where
  start : Nat
  stop : Nat
deriving DecidableEq, Repr

/-- A datamodel diagnostic; the default-unknown-function error carries
the offending function name and its span. -/
inductive DatamodelError where
  | new_default_unknown_function (function_name : String) (span : Span)
deriving DecidableEq, Repr

/-- The diagnostics accumulator of the validation pass. -/
abbrev Diagnostics : Type := List DatamodelError

/-- Diagnostics::push_error appends one error to the accumulator. -/
def Diagnostics.push_error (d : Diagnostics) (e : DatamodelError) : Diagnostics :=
  d ++ [e]

/-- A scalar-field default whose value is a function with an unknown
name, as produced by the walker consulted below: its function name and
span. -/
structure UnknownFunctionDefault where
  function_name : String
  span : Span
deriving DecidableEq, Repr

/-- The parser database, reduced to the walker the validation consults. -/
structure ParserDatabase where
  walk_scalar_field_defaults_with_unknown_function : List UnknownFunctionDefault

/-- Connector::validate_scalar_field_unknown_default_functions: for each
walked unknown-function default, pushes one error carrying the function
name and span, then returns. -/
def validate_scalar_field_unknown_default_functions
    (db : ParserDatabase) (diagnostics : Diagnostics) : Diagnostics :=
  db.walk_scalar_field_defaults_with_unknown_function.foldl
    (fun diags d =>
      diags.push_error (DatamodelError.new_default_unknown_function d.function_name d.span))
    diagnostics

/-- A model entity, as passed to the validation hook. -/
structure ModelWalker where
  name : String

/-- An enum entity, as passed to the validation hook. -/
structure EnumWalker where
  name : String

/-- A relation field entity, as passed to the validation hook. -/
structure RelationFieldWalker where
  name : String

/-- A datasource block, as passed to the validation hook. -/
structure Datasource where
  name : String

/-- The default Connector::validate_model hook: empty body, appends
nothing. -/
def validate_model (_model : ModelWalker) (_relation_mode : RelationMode)
    (diagnostics : Diagnostics) : Diagnostics :=
  diagnostics

/-- The default Connector::validate_enum hook: empty body, appends
nothing. -/
def validate_enum (_e : EnumWalker) (diagnostics : Diagnostics) : Diagnostics :=
  diagnostics

/-- The default Connector::validate_relation_field hook: empty body,
appends nothing. -/
def validate_relation_field (_field : RelationFieldWalker)
    (diagnostics : Diagnostics) : Diagnostics :=
  diagnostics

/-- The default Connector::validate_datasource hook: empty body, appends
nothing (the preview-feature bitflags argument is a plain bitset). -/
def validate_datasource (_preview_features : Nat) (_ds : Datasource)
    (diagnostics : Diagnostics) : Diagnostics :=
  diagnostics

/-! ## Theorems -/

/-- C9: SourceFile round-trips its contents: as_str after new_static,
new_allocated or any From-impl construction returns the original string,
and the default SourceFile holds the empty string. -/
theorem sourcefile_roundtrip :
    (∀ s : String, (SourceFile.new_static s).as_str = s)
    ∧ (∀ s : String, (SourceFile.new_allocated s).as_str = s)
    ∧ (∀ s : String, (SourceFile.from_string s).as_str = s)
    ∧ SourceFile.default_impl.as_str = "" :=
  ⟨fun _ => rfl, fun _ => rfl, fun _ => rfl, rfl⟩

/-- C2: supports_referential_action in ForeignKeys mode is containment in
referential_actions, and in Prisma mode containment in
emulated_referential_actions. -/
theorem supports_referential_action_dispatch (c : ValidatedConnector) (a : ReferentialAction) :
    (c.supports_referential_action RelationMode.ForeignKeys a = true
      ↔ c.referential_actions.contains a = true)
    ∧ (c.supports_referential_action RelationMode.Prisma a = true
      ↔ c.emulated_referential_actions.contains a = true) :=
  ⟨Iff.rfl, Iff.rfl⟩

/-- C10: introspect_database drops every table named "_Migration" and keeps
exactly the other tables of the raw result, unchanged and in order. -/
theorem introspect_database_drops_migration_table (raw : DatabaseSchema) :
    (∀ t, t ∈ (introspect_database raw).tables → t.name ≠ "_Migration")
    ∧ List.Sublist (introspect_database raw).tables raw.tables
    ∧ (∀ t, t ∈ (introspect_database raw).tables ↔ (t ∈ raw.tables ∧ t.name ≠ "_Migration")) := by
  refine ⟨?_, ?_, ?_⟩
  · intro t ht
    have := List.of_mem_filter ht
    simpa using this
  · exact List.filter_sublist _
  · intro t
    constructor
    · intro ht
      exact ⟨List.mem_of_mem_filter ht, by simpa using List.of_mem_filter ht⟩
    · intro ⟨hmem, hname⟩
      exact List.mem_filter.mpr ⟨hmem, by simpa using hname⟩

/-- C1: the modelled capability model is pairwise consistent: mapping a
scalar type to its default native type and back is the identity, the
inverse test accepts the default, and the three mappings are total
functions over their domains. -/
theorem capability_model_pairwise_consistent :
    PairwiseConsistent specConnector
    ∧ ∀ s : ScalarType,
        specConnector.native_type_is_default_for_scalar_type
          (specConnector.default_native_type_for_scalar_type s) s = true := by
  constructor
  · intro s
    cases s <;> rfl
  · intro s
    cases s <;> rfl

/-- C5 counterexample: resolving the backend identifiers "postgresql" and
"sqlserver" fails, because Flavour only recognises "postgres" and
"mssql". -/
theorem flavour_from_str_counterexample :
    (Flavour.from_str "postgresql").isOk = false
    ∧ (Flavour.from_str "sqlserver").isOk = false := by
  constructor <;> decide

/-- C5 amended: Flavour resolution succeeds exactly on the identifiers
"mysql", "postgres", "cockroachdb", "mssql" and "sqlite"
(case-insensitively), and errors on every other string. -/
theorem flavour_from_str_amended (s : String) :
    (Flavour.from_str s).isOk = true
      ↔ to_lowercase s ∈ ["mysql", "postgres", "cockroachdb", "mssql", "sqlite"] := by
  simp only [Flavour.from_str]
  split_ifs with h1 h2 h3 h4 h5 <;>
    simp_all [Except.isOk, Except.toBool]

/-- Fold invariant for the attribute map of span_to_json: starting from a
map whose keys all lie on the allow-list, every key of the folded map
lies on the allow-list. -/
theorem span_attr_fold_allowlist (attrs : List (String × String)) :
    ∀ acc : List (String × String),
      (∀ kv ∈ acc, kv.1 ∈ ACCEPT_ATTRIBUTES) →
      ∀ kv ∈ attrs.foldl
          (fun map kv =>
            if ACCEPT_ATTRIBUTES.contains kv.1 then hashMapInsert map kv.1 kv.2 else map)
          acc,
        kv.1 ∈ ACCEPT_ATTRIBUTES := by
  induction attrs with
  | nil =>
    intro acc hacc kv hkv
    exact hacc kv hkv
  | cons a rest ih =>
    intro acc hacc kv hkv
    simp only [List.foldl_cons] at hkv
    refine ih _ ?_ kv hkv
    intro p hp
    by_cases h : ACCEPT_ATTRIBUTES.contains a.1 = true
    · rw [if_pos h] at hp
      rcases List.mem_append.mp hp with hfilter | hnew
      · exact hacc p (List.mem_of_mem_filter hfilter)
      · have hpa : p = (a.1, a.2) := by simpa using hnew
        subst hpa
        simpa using h
    · rw [if_neg h] at hp
      exact hacc p hp

/-- C3: every attribute key in the output of span_to_json lies on the
allow-list, and any input attribute whose key is off the allow-list is
absent from the output. -/
theorem span_to_json_attribute_allowlist (span : SpanData) :
    (∀ kv ∈ (span_to_json span).attributes, kv.1 ∈ ACCEPT_ATTRIBUTES)
    ∧ ∀ k, k ∉ ACCEPT_ATTRIBUTES → ∀ v, (k, v) ∉ (span_to_json span).attributes := by
  have hall : ∀ kv ∈ (span_to_json span).attributes, kv.1 ∈ ACCEPT_ATTRIBUTES := by
    intro kv hkv
    exact span_attr_fold_allowlist span.attributes [] (by intro p hp; cases hp) kv hkv
  refine ⟨hall, ?_⟩
  intro k hk v hmem
  exact hk (hall (k, v) hmem)

/-- A concrete span carrying one allow-listed attribute and one
off-list attribute. -/
def spanExample : SpanData :=
  { name := "quaint:query"
    trace_id := "1"
    span_id := "2"
    parent_span_id := "0"
    start_time := 10
    end_time := 20
    attributes := [("db.statement", "SELECT 1"), ("secret", "x")] }

/-- Witness for C3 at a concrete span: the allow-listed attribute is kept
and found on the allow-list, the off-list attribute is rejected. -/
theorem span_to_json_attribute_allowlist_witness :
    "db.statement" ∈ ACCEPT_ATTRIBUTES
    ∧ ("secret", "x") ∉ (span_to_json spanExample).attributes := by
  constructor
  · exact (span_to_json_attribute_allowlist spanExample).1 ("db.statement", "SELECT 1")
      (by decide)
  · exact (span_to_json_attribute_allowlist spanExample).2 "secret" (by decide) "x"

/-- C4 counterexample: a serialization failure in spans_to_json is
replaced by the empty string, and a parse failure in
set_parent_context_from_json_str yields the very result a successful
parse of an empty object yields — neither failure reaches the caller. -/
theorem trace_errors_swallowed_counterexample :
    spans_to_json (fun _ => Except.error "serialization failed") [spanExample] = ""
    ∧ set_parent_context_from_json_str (fun _ => none) "not a json" = none
    ∧ set_parent_context_from_json_str (fun _ => none) "not a json"
        = set_parent_context_from_json_str (fun _ => some []) "" :=
  ⟨rfl, rfl, rfl⟩

/-- C4 amended: spans_to_json maps any serialization error to the empty
string, and set_parent_context_from_json_str treats an unparseable trace
string exactly like an empty trace map; the failures are suppressed, not
reported. -/
theorem trace_errors_swallowed_amended :
    (∀ (serialize : SpanResult → Except String String) (spans : List SpanData) (e : String),
      serialize { span := true, spans := spans.map span_to_json } = Except.error e →
      spans_to_json serialize spans = "")
    ∧ ∀ (parse : String → Option (List (String × String))) (t : String),
      parse t = none →
      set_parent_context_from_json_str parse t
        = set_parent_context_from_json_str (fun _ => some []) t := by
  constructor
  · intro serialize spans e h
    simp only [spans_to_json, h]
  · intro parse t h
    simp only [set_parent_context_from_json_str, h, Option.getD]

/-- Witness for the amended C4 at concrete failing serializers/parsers. -/
theorem trace_errors_swallowed_amended_witness :
    spans_to_json (fun _ => Except.error "boom") [] = ""
    ∧ set_parent_context_from_json_str (fun _ => none) "x"
        = set_parent_context_from_json_str (fun _ => some []) "x" :=
  ⟨trace_errors_swallowed_amended.1 (fun _ => Except.error "boom") [] "boom" rfl,
   trace_errors_swallowed_amended.2 (fun _ => none) "x" rfl⟩

/-- Witness for C10 at a concrete schema containing a "_Migration" table
and a "User" table. -/
theorem introspect_database_drops_migration_table_witness :
    (Table.mk "User" ["id"]).name ≠ "_Migration"
    ∧ Table.mk "User" ["id"] ∈
        (introspect_database ⟨[Table.mk "_Migration" ["rev"], Table.mk "User" ["id"]]⟩).tables := by
  refine ⟨?_, ?_⟩
  · exact (introspect_database_drops_migration_table
      ⟨[Table.mk "_Migration" ["rev"], Table.mk "User" ["id"]]⟩).1 (Table.mk "User" ["id"])
      (by decide)
  · decide

/-- Folding push_error over a list of defaults appends exactly one error
per element, in order. -/
theorem foldl_push_error_eq_append (l : List UnknownFunctionDefault) (acc : Diagnostics) :
    l.foldl
      (fun diags d =>
        diags.push_error (DatamodelError.new_default_unknown_function d.function_name d.span))
      acc
      = acc ++ l.map (fun d => DatamodelError.new_default_unknown_function d.function_name d.span) := by
  induction l generalizing acc with
  | nil => simp
  | cons a rest ih =>
    simp only [List.foldl_cons, List.map_cons]
    rw [ih]
    simp [Diagnostics.push_error, List.append_assoc]

/-- C8: validation is collect-all: the unknown-default-function check
appends exactly one diagnostic (with the function name and span) per
walked unknown-function default and returns normally, and the default
validate_model, validate_enum, validate_relation_field and
validate_datasource hooks append no diagnostics. -/
theorem validation_collects_all (db : ParserDatabase) (diagnostics : Diagnostics) :
    validate_scalar_field_unknown_default_functions db diagnostics
      = diagnostics
        ++ db.walk_scalar_field_defaults_with_unknown_function.map
            (fun d => DatamodelError.new_default_unknown_function d.function_name d.span)
    ∧ (∀ m rm, validate_model m rm diagnostics = diagnostics)
    ∧ (∀ e, validate_enum e diagnostics = diagnostics)
    ∧ (∀ f, validate_relation_field f diagnostics = diagnostics)
    ∧ (∀ pf ds, validate_datasource pf ds diagnostics = diagnostics) := by
  refine ⟨?_, fun _ _ => rfl, fun _ => rfl, fun _ => rfl, fun _ _ => rfl⟩
  exact foldl_push_error_eq_append _ diagnostics

/-- C7: check_out on the foreign-supplied (Js) pool variant always
returns Ok with the cloned queryable reference; on the natively pooled
(Rust) variant it returns Ok exactly when the pool checkout succeeds and
otherwise the pool error converted to SqlError. -/
theorem runtime_pool_check_out_spec (pool : Quaint) (q : Queryable) :
    RuntimePool.check_out (RuntimePool.Js q) = Except.ok (RuntimeConnection.Js q)
    ∧ (∀ conn, pool.check_out = Except.ok conn →
        RuntimePool.check_out (RuntimePool.Rust pool) = Except.ok (RuntimeConnection.Rust conn))
    ∧ (∀ e, pool.check_out = Except.error e →
        RuntimePool.check_out (RuntimePool.Rust pool)
          = Except.error (SqlError.from_quaint e)) := by
  refine ⟨rfl, ?_, ?_⟩ <;> intro x h <;> simp [RuntimePool.check_out, h]

/-- Witness for C7 at a concrete foreign queryable, a concrete pool that
succeeds and a concrete pool that fails. -/
theorem runtime_pool_check_out_spec_witness :
    RuntimePool.check_out (RuntimePool.Js ⟨7, true⟩)
      = Except.ok (RuntimeConnection.Js ⟨7, true⟩)
    ∧ RuntimePool.check_out (RuntimePool.Rust ⟨Except.ok ⟨1, false⟩⟩)
        = Except.ok (RuntimeConnection.Rust ⟨1, false⟩)
    ∧ RuntimePool.check_out (RuntimePool.Rust ⟨Except.error ⟨"pool timeout"⟩⟩)
        = Except.error (SqlError.from_quaint ⟨"pool timeout"⟩) :=
  ⟨(runtime_pool_check_out_spec ⟨Except.ok ⟨1, false⟩⟩ ⟨7, true⟩).1,
   (runtime_pool_check_out_spec ⟨Except.ok ⟨1, false⟩⟩ ⟨7, true⟩).2.1 ⟨1, false⟩ rfl,
   (runtime_pool_check_out_spec ⟨Except.error ⟨"pool timeout"⟩⟩ ⟨7, true⟩).2.2
     ⟨"pool timeout"⟩ rfl⟩

/-- C6: on a connection whose requires_isolation_first flag is set the
isolation statement is issued strictly before transaction start, and on
a connection whose flag is unset strictly after it; the runtime branches
on the flag. -/
theorem isolation_level_ordering (conn : RuntimeConnection) (l : IsolationLevel) :
    (conn.requires_isolation_first = true →
      start_transaction conn (some l)
        = [TxStatement.SetIsolation l, TxStatement.BeginTransaction])
    ∧ (conn.requires_isolation_first = false →
      start_transaction conn (some l)
        = [TxStatement.BeginTransaction, TxStatement.SetIsolation l]) := by
  constructor <;> intro h <;>
    simp [start_transaction, RuntimeConnection.set_tx_isolation_level, h]

/-- Witness for C6 at connections with each flag value. -/
theorem isolation_level_ordering_witness :
    start_transaction (RuntimeConnection.Rust ⟨0, true⟩) (some IsolationLevel.Serializable)
      = [TxStatement.SetIsolation IsolationLevel.Serializable, TxStatement.BeginTransaction]
    ∧ start_transaction (RuntimeConnection.Js ⟨1, false⟩) (some IsolationLevel.Serializable)
        = [TxStatement.BeginTransaction, TxStatement.SetIsolation IsolationLevel.Serializable] :=
  ⟨(isolation_level_ordering (RuntimeConnection.Rust ⟨0, true⟩) IsolationLevel.Serializable).1 rfl,
   (isolation_level_ordering (RuntimeConnection.Js ⟨1, false⟩) IsolationLevel.Serializable).2 rfl⟩
